import Mathlib

/-!
Verification development for the OmniParser Action Sequence Model and
Script Generation Engine (`omniparser_core.py`).

The Python source is shallowly embedded below: Python strings are Lean
`String`s (operated on through their `List Char` data), Python floats used
as pause durations are modelled as `ℚ` together with a decimal printer that
agrees with Python float formatting on the finite-decimal values the engine
handles, Python dicts holding the action registry are insertion-ordered
association lists with overwrite-in-place semantics, and the filesystem
effects (config persistence, script write) are made explicit state / explicit
outcome parameters.
-/

set_option maxRecDepth 100000

namespace OmniParser

/-! ## Python string primitives

`str.lower` and `str.strip` as used by the source.  `str.lower` is modelled
on the basic-latin range (every string the engine manipulates in the claims
is ASCII); `str.strip` removes leading and trailing whitespace.
-/

/-- ASCII lower-casing of one character, as Python `str.lower` acts on basic
latin letters. -/
def pyCharLower (c : Char) : Char :=
  match c with
  | 'A' => 'a' | 'B' => 'b' | 'C' => 'c' | 'D' => 'd' | 'E' => 'e'
  | 'F' => 'f' | 'G' => 'g' | 'H' => 'h' | 'I' => 'i' | 'J' => 'j'
  | 'K' => 'k' | 'L' => 'l' | 'M' => 'm' | 'N' => 'n' | 'O' => 'o'
  | 'P' => 'p' | 'Q' => 'q' | 'R' => 'r' | 'S' => 's' | 'T' => 't'
  | 'U' => 'u' | 'V' => 'v' | 'W' => 'w' | 'X' => 'x' | 'Y' => 'y'
  | 'Z' => 'z' | c => c

/-- Whitespace characters removed by Python `str.strip`. -/
def pyIsSpace (c : Char) : Bool :=
  c = ' ' || c = '\t' || c = '\n' || c = '\r' || c = '\x0b' || c = '\x0c'

def pyLowerList (l : List Char) : List Char := l.map pyCharLower

def pyStripList (l : List Char) : List Char :=
  ((l.dropWhile pyIsSpace).reverse.dropWhile pyIsSpace).reverse

/-- Python `s.lower()`. -/
def pyLower (s : String) : String := ⟨pyLowerList s.data⟩

/-- Python `s.strip()`. -/
def pyStrip (s : String) : String := ⟨pyStripList s.data⟩

/-- Python `s.split(sep)` (single-character separator, no collapsing of
adjacent separators, `"".split(sep) == [""]`). -/
def pySplitList (sep : Char) : List Char → List (List Char)
  | [] => [[]]
  | c :: rest =>
    let r := pySplitList sep rest
    if c = sep then [] :: r
    else
      match r with
      | [] => [[c]]
      | h :: t => (c :: h) :: t

def pySplit (s : String) (sep : Char) : List String :=
  (pySplitList sep s.data).map (fun l => ⟨l⟩)

/-- Python `sub in s` for a single-character `sub`. -/
def pyContainsChar (s : String) (c : Char) : Bool := s.data.contains c

/-! ## KeyCommandValidator state (`__init__`, lines 35-72) -/

/-- `self.key_aliases` (source lines 35-46), insertion order preserved. -/
def key_aliases : List (String × String) :=
  [("del", "delete"), ("esc", "escape"), ("ins", "insert"),
   ("ret", "return"), ("enter", "return"), ("pgup", "pageup"),
   ("pgdn", "pagedown"), ("break", "pause"), ("space", "spacebar"),
   (" ", "spacebar")]

/-- `self.allowed_single_keys` (source lines 49-67). -/
def allowed_single_keys : List String :=
  ["f1", "f2", "f3", "f4", "f5", "f6", "f7", "f8", "f9", "f10", "f11", "f12",
   "up", "down", "left", "right",
   "pageup", "pgup", "pagedown", "pgdn",
   "home", "end",
   "return", "enter",
   "escape", "esc",
   "tab",
   "spacebar", "space",
   "backspace",
   "delete", "del",
   "insert", "ins",
   "pause", "break"]

/-- `self.wheel_directions` (source lines 70-72). -/
def wheel_directions : List String := ["up", "down", "left", "right"]

/-! ## `validate_key_command` (source lines 127-153)

Returns the `(is_valid, error_message, command_type)` triple exactly as the
source does.
-/

/-- Lines 139-153 of the source: the part of `validate_key_command` that
runs on the already normalized (`.lower().strip()`) command. -/
def validate_core (kc : String) : Bool × String × String :=
  if ¬ pyContainsChar kc '+' then
    let kc2 :=
      match key_aliases.lookup kc with
      | some canon => canon
      | none => kc
    if allowed_single_keys.contains kc2 then (true, "", "single")
    else (false, "Single key \x27" ++ kc2 ++ "\x27 not in allowed list", "")
  else
    let parts := pySplit kc '+'
    if parts.all (fun part => ¬ (pyStrip part = "")) then (true, "", "combination")
    else (false, "Invalid key combination format", "")

def validate_key_command (key_command : String) : Bool × String × String :=
  if key_command = "" then (false, "Empty key command", "")
  else validate_core (pyStrip (pyLower key_command))

/-! ## Decimal printing

`action_id` uses Python `f"action_{len(...)}"`; `Nat.repr` produces the same
decimal text.  Pause durations are Python floats interpolated with `f"{pause}"`;
they are modelled as `ℚ` with the decimal printer below, which agrees with
Python float formatting on the finite-decimal values the engine stores
(e.g. `1.5`, `2.0`).
-/

def fracDigits : Nat → Nat → Nat → String
  | 0, _, _ => ""
  | fuel + 1, r, d =>
    if r = 0 then ""
    else
      (Nat.digitChar (r * 10 / d)).toString ++ fracDigits fuel (r * 10 % d) d

def floatReprNonneg (n d : Nat) : String :=
  Nat.repr (n / d) ++ "." ++ (if n % d = 0 then "0" else fracDigits 30 (n % d) d)

/-- Python float formatting of a pause value (finite-decimal rationals). -/
def floatRepr (q : ℚ) : String :=
  if q.num < 0 then "-" ++ floatReprNonneg (-q.num).toNat q.den
  else floatReprNonneg q.num.toNat q.den

/-! ## Data model

`ActionRecord` is the shape of the dict the source stores under
`config_data["elements"][action_id]` for each action type (fields `type`,
`name`, `pause` plus the type-specific fields).  The constructor determines
the stored `type` string.
-/

inductive ActionRecord where
  | wheel (direction : String) (clicks : Int) (name : String) (pause : ℚ)
  | click (name : String) (coordinates : Int × Int) (pause : ℚ)
  | right_click (name : String) (coordinates : Int × Int) (pause : ℚ)
  | text (value : String) (name : String) (pause : ℚ)
  | keys (value : String) (name : String) (pause : ℚ)
  deriving DecidableEq

/-- The frozen display name (`element["name"]`). -/
def ActionRecord.name : ActionRecord → String
  | .wheel _ _ n _ => n
  | .click n _ _ => n
  | .right_click n _ _ => n
  | .text _ n _ => n
  | .keys _ n _ => n

/-- The stored pause duration (`element["pause"]`). -/
def ActionRecord.pause : ActionRecord → ℚ
  | .wheel _ _ _ p => p
  | .click _ _ p => p
  | .right_click _ _ p => p
  | .text _ _ p => p
  | .keys _ _ p => p

/-- The loosely-typed `action_value` argument of `add_action_extended`:
either a wheel parameter dict (with optional `direction` / `clicks` entries),
an element dict carrying `name` and `coordinates`, or a plain string. -/
inductive ActionValue where
  | wheelVal (direction : Option String) (clicks : Option Int)
  | elemVal (name : String) (coordinates : Int × Int)
  | strVal (s : String)
  deriving DecidableEq

/-- Insertion-ordered association list standing for a Python dict of action
records: keys listed in insertion order, inserting an existing key overwrites
the value at its existing position. -/
abbrev ElementsDict := List (String × ActionRecord)

/-- Python dict assignment `d[k] = v`. -/
def dictInsert (d : ElementsDict) (k : String) (v : ActionRecord) : ElementsDict :=
  if d.any (fun p => p.1 = k) then
    d.map (fun p => if p.1 = k then (k, v) else p)
  else d ++ [(k, v)]

/-- Python dict lookup `d[k]` (`none` = `KeyError`). -/
def dictGet (d : ElementsDict) (k : String) : Option ActionRecord :=
  match d.find? (fun p => p.1 = k) with
  | some p => some p.2
  | none => none

/-- The persisted configuration document: the `"elements"` object and the
`"sequences"` array of `config.json`.  The JSON encoding of the record fields
round-trips exactly, so the document is modelled by its decoded content. -/
structure ConfigDoc where
  elements : ElementsDict
  sequences : List String
  deriving DecidableEq

/-- Engine state: `self.config_data` (elements + sequences), the in-memory
`self.action_sequence`, and the current on-disk content of `config.json`
(tracked separately so that "no persist occurs" is expressible). -/
structure CoreState where
  elements : ElementsDict
  sequences : List String
  action_sequence : List String
  saved_config : ConfigDoc
  deriving DecidableEq

/-- The persisted document corresponding to the in-memory `config_data`. -/
def CoreState.currentDoc (st : CoreState) : ConfigDoc :=
  ⟨st.elements, st.sequences⟩

/-- `__init__` on a working directory whose `config.json` holds `doc`:
`config_data` is loaded from the file, `action_sequence` starts empty
(source lines 21-27). -/
def fresh_engine (doc : ConfigDoc) : CoreState :=
  { elements := doc.elements
    sequences := doc.sequences
    action_sequence := []
    saved_config := doc }

/-- `__init__` when no `config.json` exists (or it is unreadable):
`load_config` falls back to the empty document. -/
def empty_state : CoreState := fresh_engine ⟨[], []⟩

/-- `reset_sequence` (source lines 120-125). -/
def reset_sequence (_st : CoreState) : String × CoreState :=
  ("Sequence reset successfully",
   { elements := []
     sequences := []
     action_sequence := []
     saved_config := ⟨[], []⟩ })

/-! ## `add_action_extended` (source lines 241-308)

The id is computed first; each branch either returns an error string with
the state unchanged (validation failure, unknown type, or a Python exception
from a value of the wrong shape, caught by the `except` clause) or stores the
record, appends the id to both `action_sequence` and
`config_data["sequences"]`, and persists (`save_config`).
-/

def actionId (n : Nat) : String := "action_" ++ Nat.repr n

/-- Successful insertion: store the record, append the id to both order
lists, persist the whole document. -/
def appendAction (st : CoreState) (aid : String) (rec : ActionRecord) : CoreState :=
  let elements := dictInsert st.elements aid rec
  let sequences := st.sequences ++ [aid]
  { elements := elements
    sequences := sequences
    action_sequence := st.action_sequence ++ [aid]
    saved_config := ⟨elements, sequences⟩ }

/-- Stands for the `"Error adding action: ..."` message produced when the
`except` clause catches a type/shape exception from a mismatched
`action_value`; the exact exception text is not modelled (no claim reaches
these branches). -/
def type_error_message : String := "Error adding action: "

/-- The success message `f"Added action: {name} with {pause}s pause"`. -/
def addedMessage (rec0 : ActionRecord) (pause : ℚ) : String :=
  "Added action: " ++ rec0.name ++ " with " ++ floatRepr pause ++ "s pause"

def add_action_extended (st : CoreState) (action_type : String)
    (action_value : ActionValue) (pause : ℚ) : String × CoreState :=
  let action_id := actionId st.action_sequence.length
  if action_type = "wheel" then
    match action_value with
    | .wheelVal dOpt cOpt =>
      let direction := pyLower (dOpt.getD "")
      let clicks := cOpt.getD 1
      if ¬ wheel_directions.contains direction then
        ("Error: Invalid wheel direction \x27" ++ direction ++ "\x27", st)
      else
        let rec0 := ActionRecord.wheel direction clicks
          ("Scroll " ++ direction ++ " (" ++ clicks.repr ++ " clicks)") pause
        (addedMessage rec0 pause, appendAction st action_id rec0)
    | _ => (type_error_message, st)
  else if action_type = "click" then
    match action_value with
    | .elemVal nm coords =>
      let rec0 := ActionRecord.click nm coords pause
      (addedMessage rec0 pause, appendAction st action_id rec0)
    | _ => (type_error_message, st)
  else if action_type = "right_click" then
    match action_value with
    | .elemVal nm coords =>
      let rec0 := ActionRecord.right_click nm coords pause
      (addedMessage rec0 pause, appendAction st action_id rec0)
    | _ => (type_error_message, st)
  else if action_type = "text" then
    match action_value with
    | .strVal v =>
      let rec0 := ActionRecord.text v
        ("Type text: " ++ String.mk (v.data.take 20)
          ++ (if v.data.length > 20 then "..." else "")) pause
      (addedMessage rec0 pause, appendAction st action_id rec0)
    | _ => (type_error_message, st)
  else if action_type = "keys" then
    match action_value with
    | .strVal v =>
      let r := validate_key_command v
      if r.1 = false then ("Error: " ++ r.2.1, st)
      else
        let rec0 := ActionRecord.keys v ("Press keys: " ++ v) pause
        (addedMessage rec0 pause, appendAction st action_id rec0)
    | _ => (type_error_message, st)
  else ("Unknown action type: " ++ action_type, st)

/-! ## `generate_script` (source lines 310-429)

The script text is assembled exactly as the string concatenation in the
source does: fixed preamble, optional loop header, one block per id in
`self.action_sequence` (looked up in `config_data["elements"]`; a missing id
would raise `KeyError`, modelled by `none`), optional loop footer, fixed
epilogue.
-/

def script_preamble : String :=
  "import pyautogui\n" ++
  "import time\n" ++
  "from ctypes import windll\n" ++
  "import win32con\n" ++
  "import win32api\n" ++
  "import keyboard\n" ++
  "\n" ++
  "def execute_sequence():\n" ++
  "    # Initialize\n" ++
  "    pyautogui.FAILSAFE = True\n" ++
  "    print(\"Starting sequence...\")\n" ++
  "    time.sleep(3)  # Initial delay to switch windows"

def loop_header : String :=
  "\n" ++
  "    try:\n" ++
  "        while True:\n" ++
  "            print(\"\\nStarting loop iteration...\")"

def loop_footer : String :=
  "\n            time.sleep(0.5)  # Short delay between iterations\n" ++
  "    except KeyboardInterrupt:\n" ++
  "        print(\"\\nLoop stopped by user\")"

def script_epilogue : String :=
  "\n" ++
  "\n" ++
  "if __name__ == \"__main__\":\n" ++
  "    print(\"Press Ctrl+C to stop the sequence\")\n" ++
  "    try:\n" ++
  "        execute_sequence()\n" ++
  "    except KeyboardInterrupt:\n" ++
  "        print(\"\\nSequence stopped by user\")"

def action_indent (loop_enabled : Bool) : String :=
  if loop_enabled then "            " else "    "

/-- The type-specific statement block of one action (source lines 349-395). -/
def action_body (indent : String) : ActionRecord → String
  | .wheel direction clicks _ _ =>
    if direction = "up" ∨ direction = "down" then
      let amount : Int := if direction = "up" then clicks * 100 else -(clicks * 100)
      indent ++ "pyautogui.scroll(" ++ amount.repr ++ ")  # Scroll " ++ direction ++ "\n"
    else
      let amount : Int := if direction = "left" then -(clicks * 100) else clicks * 100
      indent ++ "pyautogui.hscroll(" ++ amount.repr ++ ")  # Scroll " ++ direction ++ "\n"
  | .click _ coords _ =>
    indent ++ "pyautogui.moveTo(" ++ coords.1.repr ++ ", " ++ coords.2.repr
      ++ ", duration=0.5)\n" ++
    indent ++ "pyautogui.click()\n"
  | .right_click _ coords _ =>
    indent ++ "pyautogui.moveTo(" ++ coords.1.repr ++ ", " ++ coords.2.repr
      ++ ", duration=0.5)\n" ++
    indent ++ "pyautogui.rightClick()\n"
  | .text v _ _ =>
    indent ++ "pyautogui.write(\"" ++ v ++ "\")\n"
  | .keys v _ _ =>
    let key_command := pyStrip (pyLower v)
    if key_command = "esc" ∨ key_command = "escape" then
      indent ++ "# Using both keyboard library and Windows API for reliable ESC\n" ++
      indent ++ "keyboard.send(\x27esc\x27, do_press=True, do_release=True)\n" ++
      indent ++ "time.sleep(0.1)\n" ++
      "\n" ++
      indent ++ "# Backup method using Windows API with scan code\n" ++
      indent ++ "scan_code = 0x01  # ESC scan code\n" ++
      indent ++ "windll.user32.keybd_event(win32con.VK_ESCAPE, scan_code, 0, 0)  # Key down\n" ++
      indent ++ "time.sleep(0.1)\n" ++
      indent ++ "windll.user32.keybd_event(win32con.VK_ESCAPE, scan_code, win32con.KEYEVENTF_KEYUP, 0)  # Key up\n"
    else
      let r := validate_key_command key_command
      if r.1 = false then
        indent ++ "# Warning: Invalid key command " ++ key_command ++ "\n"
      else if r.2.2 = "single" then
        indent ++ "pyautogui.press(\"" ++ key_command ++ "\")\n"
      else
        indent ++ "pyautogui.hotkey(*\"" ++ key_command ++ "\".split(\x27+\x27))\n"

/-- The full emission block of one action: comment line, progress print,
type-specific body, and the sleep statement when `pause > 0`
(source lines 346-398). -/
def emit_action (indent : String) (e : ActionRecord) : String :=
  "\n" ++ indent ++ "# Action: " ++ e.name ++ "\n" ++
  indent ++ "print(\"Executing: " ++ e.name ++ "\")\n" ++
  action_body indent e ++
  (if 0 < e.pause.num then
    indent ++ "time.sleep(" ++ floatRepr e.pause ++ ")  # Pause for "
      ++ floatRepr e.pause ++ " seconds\n"
  else "")

/-- The concatenation of all per-action blocks, `none` when an id in
`action_sequence` is missing from `elements` (Python `KeyError`). -/
def emit_all (elements : ElementsDict) (indent : String) :
    List String → Option String
  | [] => some ""
  | aid :: rest =>
    match dictGet elements aid with
    | none => none
    | some e =>
      match emit_all elements indent rest with
      | none => none
      | some s => some (emit_action indent e ++ s)

/-- The complete generated script text (the value of the `script` variable
just before the file write). -/
def generate_script_text (elements : ElementsDict) (action_sequence : List String)
    (loop_enabled : Bool) : Option String :=
  match emit_all elements (action_indent loop_enabled) action_sequence with
  | none => none
  | some body =>
    some (script_preamble
      ++ (if loop_enabled then loop_header else "")
      ++ body
      ++ (if loop_enabled then loop_footer else "")
      ++ script_epilogue)

/-- A Python exception escaping `generate_script` (the `except` clause
re-raises it: `raise e`). -/
inductive PyExn where
  | keyError (k : String)
  | ioError (msg : String)
  deriving DecidableEq

/-- Outcome of calling `generate_script` across the public boundary: either
the returned message, or an exception propagating to the caller. -/
inductive GenResult where
  | returned (msg : String)
  | raised (e : PyExn)
  deriving DecidableEq

/-- `generate_script` including its I/O: `scripts_count` is the number of
entries `os.listdir` reports in the scripts directory, `write_result` is the
outcome of `open(...).write(...)`.  Any exception reaching the `except`
clause is re-raised unchanged (source lines 428-429). -/
def generate_script (st : CoreState) (loop_enabled : Bool)
    (scripts_dir : String) (scripts_count : Nat)
    (write_result : Except String Unit) : GenResult :=
  match generate_script_text st.elements st.action_sequence loop_enabled with
  | none => .raised (.keyError "action id missing from elements")
  | some _script =>
    let script_filename := scripts_dir ++ "/sequence_" ++ Nat.repr (scripts_count + 1) ++ ".py"
    match write_result with
    | .error e => .raised (.ioError e)
    | .ok _ => .returned ("Script generated: " ++ script_filename)

/-! ## Auxiliary definitions used by the theorems -/

/-- One public mutation of the engine. -/
inductive Op where
  | add (action_type : String) (value : ActionValue) (pause : ℚ)
  | reset
  deriving DecidableEq

def applyOp (st : CoreState) : Op → CoreState
  | .add ty v p => (add_action_extended st ty v p).2
  | .reset => (reset_sequence st).2

def runOps (st : CoreState) (ops : List Op) : CoreState :=
  ops.foldl applyOp st

/-- The registry invariant: `action_sequence` is `action_0, action_1, ...`,
`config_data["sequences"]` tracks it, and the element keys list it in
insertion order. -/
def RegistryInv (st : CoreState) : Prop :=
  st.action_sequence = (List.range st.elements.length).map actionId
  ∧ st.sequences = st.action_sequence
  ∧ st.elements.map Prod.fst = st.action_sequence

/-- Modelled from the spec: "escaped for the string syntax of the target
language" (§4.3 `text` emission).  The escaping the spec requires for a value
interpolated into a double-quoted Python string literal: backslash, double
quote, and newline are escaped; no hook for it exists in the source. -/
def pyEscape (s : String) : String :=
  ⟨s.data.flatMap (fun c =>
    if c = '\\' then ['\\', '\\']
    else if c = '"' then ['\\', '"']
    else if c = '\n' then ['\\', 'n']
    else [c])⟩

/-- The two-phase ESC emission block of §4.3: high-level key send, short
delay, then low-level key-down / key-up events with the Escape virtual-key
code. -/
def esc_dual_method_block (indent : String) : String :=
  indent ++ "# Using both keyboard library and Windows API for reliable ESC\n" ++
  indent ++ "keyboard.send(\x27esc\x27, do_press=True, do_release=True)\n" ++
  indent ++ "time.sleep(0.1)\n" ++
  "\n" ++
  indent ++ "# Backup method using Windows API with scan code\n" ++
  indent ++ "scan_code = 0x01  # ESC scan code\n" ++
  indent ++ "windll.user32.keybd_event(win32con.VK_ESCAPE, scan_code, 0, 0)  # Key down\n" ++
  indent ++ "time.sleep(0.1)\n" ++
  indent ++ "windll.user32.keybd_event(win32con.VK_ESCAPE, scan_code, win32con.KEYEVENTF_KEYUP, 0)  # Key up\n"

/-- The registry state after `addAction(wheel,{direction:"up",clicks:2},0)`
then `addAction(text,"hello",1.5)` on a fresh empty engine. -/
def c9_state : CoreState :=
  (add_action_extended
    (add_action_extended empty_state "wheel" (.wheelVal (some "up") (some 2)) (mkRat 0 1)).2
    "text" (.strVal "hello") (mkRat 3 2)).2

/-- The state after one successful `addAction(text,"a",0)` on a fresh empty
engine. -/
def c1_state : CoreState :=
  (add_action_extended empty_state "text" (.strVal "a") (mkRat 0 1)).2

/-- A non-empty persisted document: the one `c1_state` persists. -/
def c4_loaded_doc : ConfigDoc := c1_state.currentDoc

/-- Engine started on the non-empty document, followed by one successful
`addAction(text,"b",0)`. -/
def c4_after : CoreState :=
  (add_action_extended (fresh_engine c4_loaded_doc) "text" (.strVal "b") (mkRat 0 1)).2

/-- Decimal value of a most-significant-first digit string. -/
def digitsVal (l : List Char) : Nat :=
  l.foldl (fun a c => a * 10 + (c.toNat - 48)) 0

/-! ## Sanity checks on the validator and printers -/

example : validate_key_command "" = (false, "Empty key command", "") := by decide

example : validate_key_command "esc" = (true, "", "single") := by decide

example : validate_key_command "Enter " = (true, "", "single") := by decide

example : validate_key_command "ctrl+c" = (true, "", "combination") := by decide

example : validate_key_command "ctrl+" = (false, "Invalid key combination format", "") := by decide

example : validate_key_command "xyz" =
    (false, "Single key \x27xyz\x27 not in allowed list", "") := by decide

example : floatRepr (mkRat 3 2) = "1.5" := by decide

example : floatRepr (mkRat 0 1) = "0.0" := by decide

example : floatRepr (mkRat 2 1) = "2.0" := by decide

/-! ## C5 — empty-command validation -/

/-- C5 counterexample: `validate("   ")` is rejected, but with the
unknown-single-key error text, not the `EmptyCommand` error the claim
requires for whitespace-only input. -/
theorem c5_whitespace_counterexample :
    validate_key_command "   " = (false, "Single key \x27\x27 not in allowed list", "")
    ∧ validate_key_command "   " ≠ (false, "Empty key command", "") := by
  decide

/-- C5 (amended): `validate` fails with `EmptyCommand` exactly on the empty
string; every non-empty input that is empty after lower-casing and trimming
(e.g. whitespace-only strings) is rejected too, but with the
unknown-single-key error, not `EmptyCommand`. -/
theorem c5_empty_command_amended :
    validate_key_command "" = (false, "Empty key command", "")
    ∧ ∀ s : String, s ≠ "" → pyStrip (pyLower s) = "" →
        validate_key_command s = (false, "Single key \x27\x27 not in allowed list", "") := by
  refine ⟨by decide, fun s hne hstrip => ?_⟩
  rw [validate_key_command, if_neg hne, hstrip]
  decide

/-- C5 witness: the amended theorem applied at the whitespace-only input
`"   "`. -/
theorem c5_empty_command_amended_witness :
    validate_key_command "   " = (false, "Single key \x27\x27 not in allowed list", "") :=
  c5_empty_command_amended.2 "   " (by decide) (by decide)

/-! ## C6 — alias equivalence -/

/-- C6 counterexample: the alias-table token `" "` (aliased to `"spacebar"`)
is rejected by `validate`, while its canonical form is accepted — the input
is stripped before the alias lookup, so the `" "` alias can never match. -/
theorem c6_space_alias_counterexample :
    (" ", "spacebar") ∈ key_aliases
    ∧ validate_key_command " " = (false, "Single key \x27\x27 not in allowed list", "")
    ∧ validate_key_command "spacebar" = (true, "", "single") := by
  decide

/-- C6 (amended): for every token of the alias table except `" "`, the token
and its canonical form both validate successfully as a single key with the
same result triple; the `" "` alias is dead (see the counterexample). -/
theorem c6_alias_equivalence_amended :
    ∀ p ∈ key_aliases, p.1 ≠ " " →
      validate_key_command p.1 = (true, "", "single")
      ∧ validate_key_command p.2 = (true, "", "single") := by
  decide

/-- C6 witness: the amended theorem applied at the alias pair
`("del", "delete")`. -/
theorem c6_alias_equivalence_amended_witness :
    validate_key_command "del" = (true, "", "single")
    ∧ validate_key_command "delete" = (true, "", "single") :=
  c6_alias_equivalence_amended ("del", "delete") (by decide) (by decide)

/-! ## C1 — persistence round-trip -/

/-- C1: the persisted document does not round-trip.  After a successful
`addAction(text,"a",0)`, generating from the original engine and generating
from a fresh engine that loaded the persisted document produce different
script text: `__init__` initializes `action_sequence` to `[]` and never
reads the loaded `config_data["sequences"]`, so the fresh engine emits the
script of an empty sequence. -/
theorem c1_roundtrip_fails :
    generate_script_text c1_state.elements c1_state.action_sequence false
      ≠ generate_script_text (fresh_engine c1_state.currentDoc).elements
          (fresh_engine c1_state.currentDoc).action_sequence false
    ∧ generate_script_text (fresh_engine c1_state.currentDoc).elements
          (fresh_engine c1_state.currentDoc).action_sequence false
        = generate_script_text c1_state.elements [] false := by
  decide

/-! ## C4 — registry invariant (counterexample part) -/

/-- C4 counterexample: starting an engine on a non-empty persisted document
breaks the invariant.  Immediately after the load, `action_sequence` is `[]`
while `elements` has one key; and because the id counter restarts, the next
successful `addAction` reuses id `action_0`, overwriting the loaded record
and appending a duplicate id to `config_data["sequences"]`. -/
theorem c4_loaded_engine_counterexample :
    (fresh_engine c4_loaded_doc).action_sequence
        ≠ (fresh_engine c4_loaded_doc).elements.map Prod.fst
    ∧ c4_after.sequences = ["action_0", "action_0"]
    ∧ ¬ c4_after.sequences.Nodup
    ∧ c4_after.sequences ≠ c4_after.elements.map Prod.fst := by
  decide

/-! ## C7 — failed keys addition is atomic -/

/-- C7: a `keys` addition whose value fails validation returns the
validation error and leaves the whole engine state — records, both order
lists, and the persisted document — unchanged; in particular the id counter
(`len(action_sequence)`) does not advance, so the next successful add
allocates the id the failed call computed. -/
theorem c7_failed_keys_atomic (st : CoreState) (v : String) (p : ℚ)
    (h : (validate_key_command v).1 = false) :
    add_action_extended st "keys" (.strVal v) p
        = ("Error: " ++ (validate_key_command v).2.1, st)
    ∧ actionId (add_action_extended st "keys" (.strVal v) p).2.action_sequence.length
        = actionId st.action_sequence.length := by
  have hstep : add_action_extended st "keys" (.strVal v) p
      = ("Error: " ++ (validate_key_command v).2.1, st) := by
    simp only [add_action_extended, String.reduceEq, reduceIte]
    rw [if_pos h]
  exact ⟨hstep, by rw [hstep]⟩

/-- C7 witness: a failed `addAction(keys,"badkey",0)` on the empty registry
changes nothing, and the following successful `addAction(text,"a",0)`
receives id `action_0`. -/
theorem c7_failed_keys_atomic_witness :
    add_action_extended empty_state "keys" (.strVal "badkey") (mkRat 0 1)
        = ("Error: Single key \x27badkey\x27 not in allowed list", empty_state)
    ∧ (add_action_extended empty_state "text" (.strVal "a") (mkRat 0 1)).2.action_sequence
        = ["action_0"] := by
  refine ⟨?_, by decide⟩
  have h := (c7_failed_keys_atomic empty_state "badkey" (mkRat 0 1) (by decide)).1
  rw [h]
  decide

/-! ## C8 — ESC special-case emission -/

/-- C8: every stored `keys` action whose value normalizes (lower-case,
strip) to `esc` or `escape` emits the dual-method two-phase block —
high-level `keyboard.send`, a 0.1s delay, then the Windows-API key-down and
key-up events with `VK_ESCAPE` — rather than a plain key-press statement. -/
theorem c8_esc_two_phase (indent v nm : String) (p : ℚ)
    (h : pyStrip (pyLower v) = "esc" ∨ pyStrip (pyLower v) = "escape") :
    action_body indent (.keys v nm p) = esc_dual_method_block indent := by
  simp only [action_body]
  rw [if_pos h]
  rfl

/-- C8 witness: the theorem applied to a stored value `"esc"`. -/
theorem c8_esc_two_phase_witness :
    action_body "    " (.keys "esc" "Press keys: esc" (mkRat 0 1))
      = esc_dual_method_block "    " :=
  c8_esc_two_phase "    " "esc" "Press keys: esc" (mkRat 0 1) (by decide)

/-! ## C3 — error surface of generation -/

/-- C3: an I/O failure while writing the generated script is re-raised by
`generate_script` (`except Exception as e: raise e`), so it crosses the
public boundary as a propagating exception, not as a structured
`GenerationError` return value. -/
theorem c3_generate_io_failure_raises (st : CoreState) (loop_enabled : Bool)
    (scripts_dir : String) (scripts_count : Nat) (e : String)
    (h : (generate_script_text st.elements st.action_sequence loop_enabled).isSome) :
    generate_script st loop_enabled scripts_dir scripts_count (.error e)
      = .raised (.ioError e) := by
  unfold generate_script
  cases hgen : generate_script_text st.elements st.action_sequence loop_enabled with
  | none => rw [hgen] at h; exact absurd h (by simp)
  | some s => rfl

/-- C3 witness: on the empty registry, a failing write surfaces as the
raised I/O exception. -/
theorem c3_generate_io_failure_raises_witness :
    generate_script empty_state false "scripts" 0 (.error "disk full")
      = .raised (.ioError "disk full") :=
  c3_generate_io_failure_raises empty_state false "scripts" 0 "disk full" (by decide)

/-! ## C9 — ordered emission with pause gating -/

/-- C9: on a fresh engine, `addAction(wheel,{direction:"up",clicks:2},0)`
then `addAction(text,"hello",1.5)` then `generate(loopEnabled=false)` emits,
between the fixed preamble and epilogue and in this order: the scroll
statement with magnitude `200` (positive = up sense), then the type
statement with literal `"hello"`, then the delay statement for `1.5` — and
no delay statement after the wheel action.  In general a sleep statement
follows the body of an action exactly when its pause is strictly positive. -/
theorem c9_ordered_emission_and_pause_gating :
    generate_script_text c9_state.elements c9_state.action_sequence false
        = some (script_preamble
            ++ "\n    # Action: Scroll up (2 clicks)\n"
            ++ "    print(\"Executing: Scroll up (2 clicks)\")\n"
            ++ "    pyautogui.scroll(200)  # Scroll up\n"
            ++ "\n    # Action: Type text: hello\n"
            ++ "    print(\"Executing: Type text: hello\")\n"
            ++ "    pyautogui.write(\"hello\")\n"
            ++ "    time.sleep(1.5)  # Pause for 1.5 seconds\n"
            ++ script_epilogue)
    ∧ (∀ (indent : String) (e : ActionRecord), e.pause ≤ 0 →
        emit_action indent e
          = "\n" ++ indent ++ "# Action: " ++ e.name ++ "\n"
            ++ indent ++ "print(\"Executing: " ++ e.name ++ "\")\n"
            ++ action_body indent e)
    ∧ (∀ (indent : String) (e : ActionRecord), 0 < e.pause →
        emit_action indent e
          = "\n" ++ indent ++ "# Action: " ++ e.name ++ "\n"
            ++ indent ++ "print(\"Executing: " ++ e.name ++ "\")\n"
            ++ action_body indent e
            ++ indent ++ "time.sleep(" ++ floatRepr e.pause ++ ")  # Pause for "
            ++ floatRepr e.pause ++ " seconds\n") := by
  refine ⟨by decide, fun indent e hp => ?_, fun indent e hp => ?_⟩
  · have hnum : ¬ 0 < e.pause.num := by
      have := Rat.num_nonpos.mpr hp
      omega
    simp only [emit_action, if_neg hnum]
    simp [String.append_assoc]
  · have hnum : 0 < e.pause.num := Rat.num_pos.mpr hp
    simp only [emit_action, if_pos hnum]
    simp [String.append_assoc]

/-- C9 witness: the pause-gating clauses applied to the two concrete actions
of the round-trip example (pause `0`: no sleep line; pause `1.5`: a sleep
line for exactly `1.5`). -/
theorem c9_ordered_emission_and_pause_gating_witness :
    emit_action "    " (.wheel "up" 2 "Scroll up (2 clicks)" (mkRat 0 1))
      = "\n" ++ "    " ++ "# Action: " ++ "Scroll up (2 clicks)" ++ "\n"
        ++ "    " ++ "print(\"Executing: " ++ "Scroll up (2 clicks)" ++ "\")\n"
        ++ action_body "    " (.wheel "up" 2 "Scroll up (2 clicks)" (mkRat 0 1))
    ∧ emit_action "    " (.text "hello" "Type text: hello" (mkRat 3 2))
      = "\n" ++ "    " ++ "# Action: " ++ "Type text: hello" ++ "\n"
        ++ "    " ++ "print(\"Executing: " ++ "Type text: hello" ++ "\")\n"
        ++ action_body "    " (.text "hello" "Type text: hello" (mkRat 3 2))
        ++ "    " ++ "time.sleep(" ++ floatRepr (mkRat 3 2) ++ ")  # Pause for "
        ++ floatRepr (mkRat 3 2) ++ " seconds\n" :=
  ⟨c9_ordered_emission_and_pause_gating.2.1 "    "
      (.wheel "up" 2 "Scroll up (2 clicks)" (mkRat 0 1))
      (Rat.num_nonpos.mp (by decide)),
   c9_ordered_emission_and_pause_gating.2.2 "    "
      (.text "hello" "Type text: hello" (mkRat 3 2))
      (Rat.num_pos.mp (by decide))⟩

/-! ## C2 — text-action emission and escaping -/

/-- C2 counterexample: the stored text value is interpolated verbatim into
the `pyautogui.write("...")` template; for a value containing a double
quote, the emitted line is not the escaped emission the claim requires (and
the resulting line is not a well-formed Python string literal). -/
theorem c2_text_not_escaped_counterexample :
    action_body "    " (.text "say \"hi\"" "Type text: say \"hi\"" (mkRat 0 1))
        = "    pyautogui.write(\"say \"hi\"\")\n"
    ∧ action_body "    " (.text "say \"hi\"" "Type text: say \"hi\"" (mkRat 0 1))
        ≠ "    pyautogui.write(\"" ++ pyEscape "say \"hi\"" ++ "\")\n" := by
  decide

/-- C2 (amended): `generate` emits the type/write call with the stored value
interpolated verbatim, with no escaping; this coincides with the escaped
emission (and is syntactically valid host code) exactly for values free of
double-quote, backslash and newline characters. -/
theorem flatMap_eq_self_of_singleton {α : Type} (f : α → List α) :
    ∀ l : List α, (∀ c ∈ l, f c = [c]) → l.flatMap f = l
  | [], _ => rfl
  | a :: l, h => by
    simp only [List.flatMap_cons, h a (List.mem_cons_self a l)]
    rw [flatMap_eq_self_of_singleton f l (fun c hc => h c (List.mem_cons_of_mem a hc))]
    rfl

theorem c2_text_emission_amended (indent v nm : String) (p : ℚ)
    (h : ∀ c ∈ v.data, c ≠ '"' ∧ c ≠ '\\' ∧ c ≠ '\n') :
    action_body indent (.text v nm p)
      = indent ++ "pyautogui.write(\"" ++ pyEscape v ++ "\")\n" := by
  have hdata : v.data.flatMap (fun c =>
      if c = '\\' then ['\\', '\\']
      else if c = '"' then ['\\', '"']
      else if c = '\n' then ['\\', 'n']
      else [c]) = v.data := by
    refine flatMap_eq_self_of_singleton _ v.data (fun c hc => ?_)
    obtain ⟨h1, h2, h3⟩ := h c hc
    rw [if_neg h2, if_neg h1, if_neg h3]
  have hesc : pyEscape v = v := by
    show String.mk _ = v
    rw [hdata]
  rw [hesc]
  rfl

/-- C2 witness: the amended theorem applied to the escapable-character-free
value `"hello"`. -/
theorem c2_text_emission_amended_witness :
    action_body "    " (.text "hello" "Type text: hello" (mkRat 3 2))
      = "    " ++ "pyautogui.write(\"" ++ pyEscape "hello" ++ "\")\n" :=
  c2_text_emission_amended "    " "hello" "Type text: hello" (mkRat 3 2) (by decide)

/-! ## Injectivity of decimal action ids -/

theorem toDigitsCore_eq_append (b : Nat) :
    ∀ (f n : Nat) (ds : List Char),
      Nat.toDigitsCore b f n ds = Nat.toDigitsCore b f n [] ++ ds
  | 0, _, _ => rfl
  | f + 1, n, ds => by
    simp only [Nat.toDigitsCore]
    by_cases h : n / b = 0
    · simp [h]
    · rw [if_neg h, if_neg h,
        toDigitsCore_eq_append b f (n / b) [Nat.digitChar (n % b)],
        toDigitsCore_eq_append b f (n / b) (Nat.digitChar (n % b) :: ds)]
      simp

theorem digitChar_val (m : Nat) (h : m < 10) : (Nat.digitChar m).toNat - 48 = m := by
  interval_cases m <;> decide

theorem digitsVal_append_digit (l : List Char) (c : Char) :
    digitsVal (l ++ [c]) = digitsVal l * 10 + (c.toNat - 48) := by
  simp [digitsVal, List.foldl_append]

theorem digitsVal_toDigitsCore :
    ∀ (f n : Nat), n < f → digitsVal (Nat.toDigitsCore 10 f n []) = n
  | 0, n, h => absurd h (Nat.not_lt_zero n)
  | f + 1, n, h => by
    simp only [Nat.toDigitsCore]
    by_cases hd : n / 10 = 0
    · rw [if_pos hd]
      have h10 : n < 10 := (Nat.div_eq_zero_iff (by norm_num)).mp hd
      show digitsVal [Nat.digitChar (n % 10)] = n
      simp [digitsVal, digitChar_val (n % 10) (Nat.mod_lt n (by norm_num))]
      omega
    · have hpos : 0 < n := by
        rcases Nat.eq_zero_or_pos n with h0 | h0
        · subst h0; simp at hd
        · exact h0
      have hdiv : n / 10 < f := by
        have h1 : n / 10 < n := Nat.div_lt_self hpos (by norm_num)
        omega
      rw [if_neg hd, toDigitsCore_eq_append, digitsVal_append_digit,
        digitsVal_toDigitsCore f (n / 10) hdiv,
        digitChar_val (n % 10) (Nat.mod_lt n (by norm_num))]
      have := Nat.div_add_mod n 10
      omega

theorem natRepr_injective {m n : Nat} (h : Nat.repr m = Nat.repr n) : m = n := by
  have hd : Nat.toDigits 10 m = Nat.toDigits 10 n := by
    have hdata := congrArg String.data h
    simpa [Nat.repr, List.asString] using hdata
  have hm := digitsVal_toDigitsCore (m + 1) m (Nat.lt_succ_self m)
  have hn := digitsVal_toDigitsCore (n + 1) n (Nat.lt_succ_self n)
  simp only [show Nat.toDigitsCore 10 (m + 1) m [] = Nat.toDigits 10 m from rfl] at hm
  simp only [show Nat.toDigitsCore 10 (n + 1) n [] = Nat.toDigits 10 n from rfl] at hn
  rw [hd] at hm
  omega

theorem actionId_injective {m n : Nat} (h : actionId m = actionId n) : m = n := by
  apply natRepr_injective
  have hdata := congrArg String.data h
  simp only [actionId, String.data_append] at hdata
  exact String.ext (List.append_cancel_left hdata)

/-! ## C4 — registry invariant (amended part) -/

theorem length_eq_of_registryInv {st : CoreState} (h : RegistryInv st) :
    st.action_sequence.length = st.elements.length := by
  rw [h.1, List.length_map, List.length_range]

theorem actionId_not_mem_range (n : Nat) :
    actionId n ∉ (List.range n).map actionId := by
  intro hmem
  obtain ⟨i, hi, hEq⟩ := List.mem_map.mp hmem
  have h2 := actionId_injective hEq
  have h3 := List.mem_range.mp hi
  omega

theorem registryInv_appendAction {st : CoreState} (h : RegistryInv st)
    (r : ActionRecord) :
    RegistryInv (appendAction st (actionId st.action_sequence.length) r) := by
  obtain ⟨h1, h2, h3⟩ := h
  have hlen : st.action_sequence.length = st.elements.length := by
    rw [h1, List.length_map, List.length_range]
  have hnot : ¬ (st.elements.any
      (fun p => p.1 = actionId st.action_sequence.length) = true) := by
    rw [List.any_eq_true]
    rintro ⟨p, hp, hpe⟩
    have hmem : actionId st.action_sequence.length ∈ st.elements.map Prod.fst := by
      rw [List.mem_map]
      exact ⟨p, hp, by simpa using hpe⟩
    rw [hlen, h3, h1] at hmem
    exact actionId_not_mem_range _ hmem
  have hins : dictInsert st.elements (actionId st.action_sequence.length) r
      = st.elements ++ [(actionId st.action_sequence.length, r)] := by
    unfold dictInsert
    rw [if_neg hnot]
  refine ⟨?_, ?_, ?_⟩
  · show st.action_sequence ++ [actionId st.action_sequence.length]
      = (List.range (dictInsert st.elements
          (actionId st.action_sequence.length) r).length).map actionId
    rw [hins, List.length_append, List.length_singleton, List.range_succ,
      List.map_append, ← h1, ← hlen]
    rfl
  · show st.sequences ++ [actionId st.action_sequence.length]
      = st.action_sequence ++ [actionId st.action_sequence.length]
    rw [h2]
  · show (dictInsert st.elements (actionId st.action_sequence.length) r).map Prod.fst
      = st.action_sequence ++ [actionId st.action_sequence.length]
    rw [hins, List.map_append, h3]
    rfl

theorem add_action_state_cases (st : CoreState) (ty : String)
    (v : ActionValue) (p : ℚ) :
    (add_action_extended st ty v p).2 = st
    ∨ ∃ r, (add_action_extended st ty v p).2
        = appendAction st (actionId st.action_sequence.length) r := by
  unfold add_action_extended
  dsimp only
  repeat' split
  all_goals first
    | exact Or.inl rfl
    | exact Or.inr ⟨_, rfl⟩

theorem registryInv_applyOp {st : CoreState} (h : RegistryInv st) (op : Op) :
    RegistryInv (applyOp st op) := by
  cases op with
  | reset => exact ⟨rfl, rfl, rfl⟩
  | add ty v p =>
    rcases add_action_state_cases st ty v p with hc | ⟨r, hc⟩
    · show RegistryInv (add_action_extended st ty v p).2
      rw [hc]; exact h
    · show RegistryInv (add_action_extended st ty v p).2
      rw [hc]; exact registryInv_appendAction h r

theorem registryInv_runOps :
    ∀ (ops : List Op) (st : CoreState), RegistryInv st → RegistryInv (runOps st ops)
  | [], _, h => h
  | op :: ops, st, h => registryInv_runOps ops _ (registryInv_applyOp h op)

/-- C4 (amended): after any sequence of engine operations starting from an
engine with an EMPTY persisted document (or, equivalently, from any state
reached after `reset`), the registry invariant holds: `action_sequence`
equals the element keys in insertion order, `config_data["sequences"]`
tracks it, there are no duplicate ids, and the i-th entry is `action_i`.
Starting from a loaded non-empty document the invariant fails (see the
counterexample): the claim must exclude that case. -/
theorem c4_registry_invariant_amended (ops : List Op) :
    (runOps empty_state ops).action_sequence
        = ((runOps empty_state ops).elements).map Prod.fst
    ∧ (runOps empty_state ops).sequences = (runOps empty_state ops).action_sequence
    ∧ (runOps empty_state ops).action_sequence.Nodup
    ∧ ∀ (i : Nat) (h : i < (runOps empty_state ops).action_sequence.length),
        (runOps empty_state ops).action_sequence.get ⟨i, h⟩ = actionId i := by
  obtain ⟨h1, h2, h3⟩ := registryInv_runOps ops empty_state ⟨rfl, rfl, rfl⟩
  refine ⟨h3.symm, h2, ?_, ?_⟩
  · rw [h1]
    exact List.Nodup.map (fun a b hab => actionId_injective hab) (List.nodup_range _)
  · intro i hi
    have hget := List.get_of_eq h1 ⟨i, hi⟩
    rw [hget, List.get_map]
    congr 1
    exact List.get_range _ _

/-- C4 witness: the amended theorem applied to a two-operation run
(`addAction(text,"a",0)` then `addAction(keys,"esc",0)`); the positional-id
clause instantiated at index `0`. -/
theorem c4_registry_invariant_amended_witness :
    ((runOps empty_state
        [.add "text" (.strVal "a") (mkRat 0 1), .add "keys" (.strVal "esc") (mkRat 0 1)]
      ).action_sequence
        = ((runOps empty_state
        [.add "text" (.strVal "a") (mkRat 0 1), .add "keys" (.strVal "esc") (mkRat 0 1)]
      ).elements).map Prod.fst)
    ∧ (runOps empty_state
        [.add "text" (.strVal "a") (mkRat 0 1), .add "keys" (.strVal "esc") (mkRat 0 1)]
      ).action_sequence.get ⟨0, by decide⟩ = actionId 0 :=
  ⟨(c4_registry_invariant_amended _).1,
   (c4_registry_invariant_amended _).2.2.2 0 (by decide)⟩

/-! ## Normalization is a fixpoint of itself

`add_action_extended` validates the raw `keys` value; `generate_script`
re-validates the `.lower().strip()` form.  The lemmas below show the
normalization `strip ∘ lower` is idempotent, so add-time validity implies
generate-time validity (claim C10).
-/

theorem pyCharLower_cases (c : Char) :
    pyCharLower c = c
    ∨ (c ∈ ['A', 'B', 'C', 'D', 'E', 'F', 'G', 'H', 'I', 'J', 'K', 'L', 'M',
            'N', 'O', 'P', 'Q', 'R', 'S', 'T', 'U', 'V', 'W', 'X', 'Y', 'Z']
       ∧ pyCharLower c ∈ ['a', 'b', 'c', 'd', 'e', 'f', 'g', 'h', 'i', 'j',
            'k', 'l', 'm', 'n', 'o', 'p', 'q', 'r', 's', 't', 'u', 'v', 'w',
            'x', 'y', 'z']) := by
  unfold pyCharLower
  split <;> first | (left; rfl) | (right; exact ⟨by decide, by decide⟩)

theorem pyCharLower_idem (c : Char) : pyCharLower (pyCharLower c) = pyCharLower c := by
  rcases pyCharLower_cases c with h | h
  · rw [h]
    exact h
  · have hfix : ∀ d ∈ ['a', 'b', 'c', 'd', 'e', 'f', 'g', 'h', 'i', 'j',
        'k', 'l', 'm', 'n', 'o', 'p', 'q', 'r', 's', 't', 'u', 'v', 'w',
        'x', 'y', 'z'], pyCharLower d = d := by decide
    exact hfix _ h.2

theorem pyIsSpace_pyCharLower (c : Char) : pyIsSpace (pyCharLower c) = pyIsSpace c := by
  rcases pyCharLower_cases c with h | h
  · rw [h]
  · have h1 : ∀ d ∈ ['a', 'b', 'c', 'd', 'e', 'f', 'g', 'h', 'i', 'j',
        'k', 'l', 'm', 'n', 'o', 'p', 'q', 'r', 's', 't', 'u', 'v', 'w',
        'x', 'y', 'z'], pyIsSpace d = false := by decide
    have h2 : ∀ d ∈ ['A', 'B', 'C', 'D', 'E', 'F', 'G', 'H', 'I', 'J', 'K',
        'L', 'M', 'N', 'O', 'P', 'Q', 'R', 'S', 'T', 'U', 'V', 'W', 'X', 'Y',
        'Z'], pyIsSpace d = false := by decide
    rw [h1 _ h.2, h2 _ h.1]

theorem dropWhile_dropWhile {α : Type} (p : α → Bool) :
    ∀ l : List α, List.dropWhile p (List.dropWhile p l) = List.dropWhile p l
  | [] => rfl
  | a :: l => by
    by_cases h : p a
    · simp only [List.dropWhile_cons, if_pos h]
      exact dropWhile_dropWhile p l
    · simp only [List.dropWhile_cons, if_neg h]

theorem dropWhile_map_of_pred {α : Type} (f : α → α) (p : α → Bool)
    (hf : ∀ c, p (f c) = p c) :
    ∀ l : List α, List.dropWhile p (l.map f) = (List.dropWhile p l).map f
  | [] => rfl
  | a :: l => by
    by_cases h : p a
    · simp only [List.map_cons, List.dropWhile_cons, hf a, if_pos h]
      exact dropWhile_map_of_pred f p hf l
    · simp only [List.map_cons, List.dropWhile_cons, hf a, if_neg h]

theorem dropWhile_head_false {α : Type} (p : α → Bool) :
    ∀ (l : List α) (a : α) (t : List α), List.dropWhile p l = a :: t → p a = false
  | [], a, t, h => by simp at h
  | b :: l, a, t, h => by
    by_cases hb : p b
    · rw [List.dropWhile_cons, if_pos hb] at h
      exact dropWhile_head_false p l a t h
    · rw [List.dropWhile_cons, if_neg hb] at h
      cases h
      simpa using hb

theorem dropWhile_reverse_dropWhile_reverse {α : Type} (p : α → Bool)
    (l : List α) (hl : List.dropWhile p l = l) :
    List.dropWhile p ((List.dropWhile p l.reverse).reverse)
      = (List.dropWhile p l.reverse).reverse := by
  obtain ⟨t, ht⟩ := List.dropWhile_suffix (l := l.reverse) p
  cases hrev : (List.dropWhile p l.reverse).reverse with
  | nil => rfl
  | cons b r =>
    have hpre : b :: (r ++ t.reverse) = l := by
      have h2 := congrArg List.reverse ht
      rw [List.reverse_append, List.reverse_reverse, hrev] at h2
      simpa using h2
    have hb : p b = false := by
      apply dropWhile_head_false p l b (r ++ t.reverse)
      rw [hl]
      exact hpre.symm
    rw [List.dropWhile_cons, if_neg (by simp [hb])]

theorem pyLowerList_idem (l : List Char) : pyLowerList (pyLowerList l) = pyLowerList l := by
  simp only [pyLowerList, List.map_map]
  exact List.map_congr_left (fun a _ => pyCharLower_idem a)

theorem pyLowerList_pyStripList (l : List Char) :
    pyLowerList (pyStripList l) = pyStripList (pyLowerList l) := by
  unfold pyLowerList pyStripList
  rw [dropWhile_map_of_pred pyCharLower pyIsSpace pyIsSpace_pyCharLower l,
    ← List.map_reverse,
    dropWhile_map_of_pred pyCharLower pyIsSpace pyIsSpace_pyCharLower,
    List.reverse_map]

theorem pyStripList_idem (l : List Char) :
    pyStripList (pyStripList l) = pyStripList l := by
  simp only [pyStripList]
  have hA : List.dropWhile pyIsSpace (List.dropWhile pyIsSpace l)
      = List.dropWhile pyIsSpace l := dropWhile_dropWhile pyIsSpace l
  have h1 := dropWhile_reverse_dropWhile_reverse pyIsSpace
    (List.dropWhile pyIsSpace l) hA
  rw [h1, List.reverse_reverse, dropWhile_dropWhile]

theorem normalize_fixpoint (s : String) :
    pyStrip (pyLower (pyStrip (pyLower s))) = pyStrip (pyLower s) := by
  show (⟨pyStripList (pyLowerList (pyStripList (pyLowerList s.data)))⟩ : String)
      = ⟨pyStripList (pyLowerList s.data)⟩
  rw [pyLowerList_pyStripList, pyLowerList_idem, pyStripList_idem]

theorem validate_key_command_normalized (v : String)
    (h : (validate_key_command v).1 = true) :
    validate_key_command (pyStrip (pyLower v)) = validate_key_command v := by
  have hv : ¬ (v = "") := by
    intro h0
    subst h0
    simp [validate_key_command] at h
  have hkc : ¬ (pyStrip (pyLower v) = "") := by
    intro h0
    rw [validate_key_command, if_neg hv, h0] at h
    exact absurd h (by decide)
  simp only [validate_key_command, if_neg hv, if_neg hkc, normalize_fixpoint]

/-! ## C10 — the warning branch is unreachable for same-session registries -/

/-- C10: for a `keys` value accepted by add-time validation (the only way a
`keys` record enters the registry in one session), the generate-time
re-validation of the `.lower().strip()` form also succeeds, so the emission
is always an executable statement — the ESC dual-method block, a key-press,
or a hotkey call — never the comment-only "Invalid key command" warning. -/
theorem c10_warning_branch_unreachable (indent nm : String) (p : ℚ) (v : String)
    (h : (validate_key_command v).1 = true) :
    action_body indent (.keys v nm p) = esc_dual_method_block indent
    ∨ action_body indent (.keys v nm p)
        = indent ++ "pyautogui.press(\"" ++ pyStrip (pyLower v) ++ "\")\n"
    ∨ action_body indent (.keys v nm p)
        = indent ++ "pyautogui.hotkey(*\"" ++ pyStrip (pyLower v) ++ "\".split(\x27+\x27))\n" := by
  by_cases hesc : pyStrip (pyLower v) = "esc" ∨ pyStrip (pyLower v) = "escape"
  · left
    simp only [action_body]
    rw [if_pos hesc]
    rfl
  · have hval : (validate_key_command (pyStrip (pyLower v))).1 = true := by
      rw [validate_key_command_normalized v h]
      exact h
    have hne : ¬ ((validate_key_command (pyStrip (pyLower v))).1 = false) := by
      simp [hval]
    simp only [action_body]
    rw [if_neg hesc, if_neg hne]
    by_cases hk : (validate_key_command (pyStrip (pyLower v))).2.2 = "single"
    · right; left
      rw [if_pos hk]
    · right; right
      rw [if_neg hk]

/-- C10 witness: the theorem applied to the stored combination `"ctrl+c"`
(accepted at add time; emitted as a hotkey call). -/
theorem c10_warning_branch_unreachable_witness :
    action_body "    " (.keys "ctrl+c" "Press keys: ctrl+c" (mkRat 0 1))
        = esc_dual_method_block "    "
    ∨ action_body "    " (.keys "ctrl+c" "Press keys: ctrl+c" (mkRat 0 1))
        = "    " ++ "pyautogui.press(\"" ++ pyStrip (pyLower "ctrl+c") ++ "\")\n"
    ∨ action_body "    " (.keys "ctrl+c" "Press keys: ctrl+c" (mkRat 0 1))
        = "    " ++ "pyautogui.hotkey(*\"" ++ pyStrip (pyLower "ctrl+c")
            ++ "\".split(\x27+\x27))\n" :=
  c10_warning_branch_unreachable "    " "Press keys: ctrl+c" (mkRat 0 1) "ctrl+c" (by decide)

end OmniParser
